import Mathlib

/-!
Shallow embedding of the Leaflet radar-overlay plugin `l.radar.js`
(files `src/l.radar.js` and `src/unnamed/part_001`, two variants of the
same plugin that differ only in `getPath`).

Modelling conventions:
* JS double arithmetic is idealised over `ℝ`.  A JS `NaN` arising inside the
  longitudinal-radius computation of `_project` is modelled by `Option ℝ`
  (`none` = NaN); everywhere else the numbers are plain reals.
* `Math.round` is round-half-up, which is Mathlib's `round` on `ℝ`.
* The host map (an external collaborator: `map.project`, `map.unproject`,
  `map.latLngToLayerPoint`, the CRS) is an abstract `MapView` record of
  total real-valued functions; claims quantify over it.
* SVG path strings are modelled as lists of path commands (`PathCmd`);
  the string the source returns is the sequential rendering of that list
  (real coordinates have no canonical decimal rendering, the command list
  carries exactly the data the source concatenates).
* Theorems about the spherical branch assume `Real.cos (degRad * lat) ≠ 0`:
  an IEEE-double `Math.cos` never returns exactly `0` (its zeros are
  irrational, hence not representable), so over the reals this hypothesis is
  satisfied by every latitude the JS code can actually see.
-/

namespace LRadar

noncomputable section

/-- Pixel-space point, Leaflet's `L.Point`. -/
structure Point where
  x : ℝ
  y : ℝ

/-- Leaflet `Point.add`. -/
def Point.add (p q : Point) : Point := ⟨p.x + q.x, p.y + q.y⟩

/-- Leaflet `Point.subtract`. -/
def Point.subtract (p q : Point) : Point := ⟨p.x - q.x, p.y - q.y⟩

/-- Leaflet `Point.divideBy`. -/
def Point.divideBy (p : Point) (n : ℝ) : Point := ⟨p.x / n, p.y / n⟩

/-- Leaflet `L.Bounds`: an axis-aligned pixel box. -/
structure Bounds where
  bmin : Point
  bmax : Point

/-- `new L.Bounds(a, b)`: Leaflet extends an empty bounds by both corner
arguments, producing the componentwise min/max box. -/
def boundsOf (a b : Point) : Bounds :=
  ⟨⟨min a.x b.x, min a.y b.y⟩, ⟨max a.x b.x, max a.y b.y⟩⟩

/-- The descriptor state created by `L.Radar.radarDescriptor`: pixel radii
(`_minorRadius`, `_majorRadius`, overwritten by `_project`), geodesic radii
(`_mRadius` = major, `_nRadius` = minor), the angles, and the angular midpoint
`_middleAngle` used by the two-arc `getPath` of `src/l.radar.js` (the
`src/unnamed/part_001` variant has no such field and its `getPath` never
reads it, so the extra field is inert for that variant). -/
structure RadarDescriptor where
  _minorRadius : ℝ
  _majorRadius : ℝ
  _mRadius : ℝ
  _nRadius : ℝ
  _startAngle : ℝ
  _endAngle : ℝ
  _middleAngle : ℝ

/-- `L.Radar.radarDescriptor(minorRadius, majorRadius, startAngle, endAngle)`.
On non-NaN numbers the JS defaulting `x || 0` is the identity (`0 || 0` is
`0`), so it disappears in the real-valued embedding. -/
def radarDescriptor (minorRadius majorRadius startAngle endAngle : ℝ) : RadarDescriptor :=
  { _minorRadius := minorRadius
    _majorRadius := majorRadius
    _mRadius := majorRadius
    _nRadius := minorRadius
    _startAngle := startAngle
    _endAngle := endAngle
    _middleAngle := (startAngle + endAngle) / 2 }

/-- The slice of the host Leaflet map consumed by `_project` and
`_updateBounds` (spec §6: external collaborator, specified at the interface
only).  `crsIsEarth` models the branch test
`crs.distance === L.CRS.Earth.distance`; `unprojectLat p` is
`map.unproject(p).lat` (only the latitude of that result is read). -/
structure MapView where
  crsIsEarth : Bool
  project : ℝ → ℝ → Point
  unprojectLat : Point → ℝ
  pixelOrigin : Point
  latLngToLayerPoint : ℝ → ℝ → Point
  crsProject : ℝ → ℝ → Point
  crsUnproject : Point → ℝ × ℝ

/-- `L.CRS.Earth.R`, the mean earth radius in meters. -/
def earthR : ℝ := 6371000

/-- The source's `d = Math.PI / 180`. -/
def degRad : ℝ := Real.pi / 180

/-- `latR = (geoRadius / L.CRS.Earth.R) / d` (the code computes it from
`_mRadius` and then again from `_nRadius`). -/
def latAngularRadius (geoRadius : ℝ) : ℝ := (geoRadius / earthR) / degRad

/-- `p = top.add(bottom).divideBy(2)` where `top`/`bottom` project the center
shifted by `±latR` in latitude. -/
def radiusMidpoint (m : MapView) (lat lng latR : ℝ) : Point :=
  ((m.project (lat + latR) lng).add (m.project (lat - latR) lng)).divideBy 2

/-- `lat2 = map.unproject(p).lat`. -/
def lat2of (m : MapView) (lat lng latR : ℝ) : ℝ :=
  m.unprojectLat (radiusMidpoint m lat lng latR)

/-- The law-of-cosines longitudinal angular radius
`lngR = Math.acos((cos(latR*d) - sin(lat*d)*sin(lat2*d)) / (cos(lat*d)*cos(lat2*d))) / d`.
`none` models a JS NaN result: a zero denominator makes the quotient an
infinity or NaN and `Math.acos` of those is NaN, and `Math.acos` of an
argument outside `[-1, 1]` is NaN. -/
def lngRraw (lat lat2 latR : ℝ) : Option ℝ :=
  let num := Real.cos (latR * degRad) - Real.sin (lat * degRad) * Real.sin (lat2 * degRad)
  let den := Real.cos (lat * degRad) * Real.cos (lat2 * degRad)
  if den = 0 then none
  else if 1 < |num / den| then none
  else some (Real.arccos (num / den) / degRad)

/-- The small-angle fallback `lngR = latR / Math.cos(Math.PI / 180 * lat)`.
An IEEE-double cosine is never exactly `0`, so the zero-denominator branch is
unreachable for inputs coming from doubles; it is modelled as `none` and every
theorem about the spherical branch assumes `Real.cos (degRad * lat) ≠ 0`. -/
def lngRfallback (lat latR : ℝ) : Option ℝ :=
  if Real.cos (degRad * lat) = 0 then none
  else some (latR / Real.cos (degRad * lat))

/-- The guarded assignment
`if (isNaN(lngR) || lngR === 0) { lngR = latR / Math.cos(Math.PI / 180 * lat); }`:
the value of `lngR` after the guard. -/
def lngRfinal (m : MapView) (lat lng latR : ℝ) : Option ℝ :=
  match lngRraw lat (lat2of m lat lng latR) latR with
  | none => lngRfallback lat latR
  | some v => if v = 0 then lngRfallback lat latR else some v

/-- The stored pixel radius
`isNaN(lngR) ? 0 : Math.max(Math.round(p.x - map.project([lat2, lng - lngR]).x), 1)`. -/
def pixelRadiusFrom (m : MapView) (lat lng latR : ℝ) (lngR : Option ℝ) : ℝ :=
  match lngR with
  | none => 0
  | some v =>
      ((max (round ((radiusMidpoint m lat lng latR).x -
          (m.project (lat2of m lat lng latR) (lng - v)).x)) 1 : ℤ) : ℝ)

/-- One spherical-branch radius computation of `_project` (the code runs this
block twice per pass: once with `_mRadius` for `_majorRadius`, once with
`_nRadius` for `_minorRadius`). -/
def sphericalPixelRadius (m : MapView) (lat lng geoRadius : ℝ) : ℝ :=
  pixelRadiusFrom m lat lng (latAngularRadius geoRadius)
    (lngRfinal m lat lng (latAngularRadius geoRadius))

/-- `_updateBounds`: `r = this._radarDescriptor._majorRadius`,
`w = this._clickTolerance()`, `p = [r + w, r + w]`, and then
`this._pxBounds = new L.Bounds(this._point.subtract(p), this._point.subtract(p))`
— the source passes `subtract` for BOTH corners. -/
def updateBounds (dsc : RadarDescriptor) (point : Point) (w : ℝ) : Bounds :=
  let r := dsc._majorRadius
  let p : Point := ⟨r + w, r + w⟩
  boundsOf (point.subtract p) (point.subtract p)

/-- The overlay state `_project` reads and writes: the center `_latlng`
(as lat/lng), the descriptor, `this._point` and `this._pxBounds`. -/
structure RadarState where
  lat : ℝ
  lng : ℝ
  desc : RadarDescriptor
  point : Point
  pxBounds : Bounds

/-- The non-spherical branch's stored major radius:
`latlng2 = crs.unproject(crs.project(this._latlng).subtract([_mRadius, 0]))`
and then `this._point.x - map.latLngToLayerPoint(latlng2).x` with
`this._point = map.latLngToLayerPoint(this._latlng)`. -/
def flatMajorRadius (m : MapView) (s : RadarState) : ℝ :=
  let latlng2 := m.crsUnproject ((m.crsProject s.lat s.lng).subtract ⟨s.desc._mRadius, 0⟩)
  (m.latLngToLayerPoint s.lat s.lng).x - (m.latLngToLayerPoint latlng2.1 latlng2.2).x

/-- `_project` as a state transformer; `w` is `this._clickTolerance()`.
In the spherical branch the interim `this._point = p.subtract(map.getPixelOrigin())`
is dead: both branches end with
`this._point = this._map.latLngToLayerPoint(this._latlng)` before
`this._updateBounds()` runs, so only the final value is kept.  The spherical
branch writes both pixel-radius fields; the non-spherical branch writes only
`_majorRadius`. -/
def projectRun (m : MapView) (w : ℝ) (s : RadarState) : RadarState :=
  if m.crsIsEarth then
    let major := sphericalPixelRadius m s.lat s.lng s.desc._mRadius
    let minor := sphericalPixelRadius m s.lat s.lng s.desc._nRadius
    let desc' := { s.desc with _majorRadius := major, _minorRadius := minor }
    let pt := m.latLngToLayerPoint s.lat s.lng
    { s with desc := desc', point := pt, pxBounds := updateBounds desc' pt w }
  else
    let desc' := { s.desc with _majorRadius := flatMajorRadius m s }
    let pt := m.latLngToLayerPoint s.lat s.lng
    { s with desc := desc', point := pt, pxBounds := updateBounds desc' pt w }

/-- One SVG path command; the string the source builds is the sequential
rendering of a list of these. -/
inductive PathCmd where
  | move (target : Point)
  | line (target : Point)
  | arc (rx ry xrot : ℝ) (largeArc sweep : ℕ) (target : Point)
  | close

/-- `createVertex(radius, angle, point)` from `src/l.radar.js`:
`(radius * cos(angle) + point.x, radius * sin(angle) + point.y)`. -/
def createVertex (radius angle : ℝ) (p : Point) : Point :=
  ⟨radius * Real.cos angle + p.x, radius * Real.sin angle + p.y⟩

/-- `getPath` of the `src/l.radar.js` variant: the two-arc-segment
construction through the `_middleAngle` vertex with fixed flag pairs
`0 1` (outer) and `0 0` (inner), closed with `Z`. -/
def getPathTwoArc (dsc : RadarDescriptor) (p : Point) : List PathCmd :=
  let minorRadius := dsc._minorRadius
  let majorRadius := dsc._majorRadius
  let v1 := createVertex minorRadius dsc._startAngle p
  let v2 := createVertex majorRadius dsc._startAngle p
  let v3 := createVertex majorRadius dsc._middleAngle p
  let v4 := createVertex majorRadius dsc._endAngle p
  let v5 := createVertex minorRadius dsc._endAngle p
  let v6 := createVertex minorRadius dsc._middleAngle p
  [PathCmd.move v1, PathCmd.line v2,
   PathCmd.arc majorRadius majorRadius 0 0 1 v3,
   PathCmd.arc majorRadius majorRadius 0 0 1 v4,
   PathCmd.line v5,
   PathCmd.arc minorRadius minorRadius 0 0 0 v6,
   PathCmd.arc minorRadius minorRadius 0 0 0 v1,
   PathCmd.close]

/-- `getPath` of the `src/unnamed/part_001` variant: the single-arc
construction.  `capturedStart`/`capturedEnd` are the constructor arguments the
closure captures for `majorArc = (endAngle - startAngle) > Math.PI ? 1 : 0`;
the four vertices read the `this._*` fields.  For a factory-built descriptor
the captured arguments and the fields coincide.  Note the inner return arc is
emitted with the SAME `majorArc` flag as the outer arc (sweep `0`), and there
is no trailing `Z`. -/
def getPathSingleArc (capturedStart capturedEnd : ℝ) (dsc : RadarDescriptor) (p : Point) :
    List PathCmd :=
  let minorRadius := dsc._minorRadius
  let majorRadius := dsc._majorRadius
  let majorArc : ℕ := if Real.pi < capturedEnd - capturedStart then 1 else 0
  let firstVertex : Point :=
    ⟨minorRadius * Real.cos dsc._startAngle + p.x, minorRadius * Real.sin dsc._startAngle + p.y⟩
  let secondVertex : Point :=
    ⟨majorRadius * Real.cos dsc._startAngle + p.x, majorRadius * Real.sin dsc._startAngle + p.y⟩
  let thirdVertex : Point :=
    ⟨majorRadius * Real.cos dsc._endAngle + p.x, majorRadius * Real.sin dsc._endAngle + p.y⟩
  let fourthVertex : Point :=
    ⟨minorRadius * Real.cos dsc._endAngle + p.x, minorRadius * Real.sin dsc._endAngle + p.y⟩
  [PathCmd.move firstVertex, PathCmd.line secondVertex,
   PathCmd.arc majorRadius majorRadius 0 majorArc 1 thirdVertex,
   PathCmd.line fourthVertex,
   PathCmd.arc minorRadius minorRadius 0 majorArc 0 firstVertex]

/-- The large-arc and sweep flags of an arc command, `none` for the other
commands. -/
def arcFlags : PathCmd → Option (ℕ × ℕ)
  | PathCmd.arc _ _ _ la sw _ => some (la, sw)
  | _ => none

/-- The two-arc `getPath` as a state transformer over everything it can reach
(the descriptor and the anchor point): the JS body only declares locals and
returns a value, it assigns to no field, so the post-state equals the
pre-state. -/
def getPathTwoArcRun (dsc : RadarDescriptor) (p : Point) :
    List PathCmd × RadarDescriptor × Point :=
  (getPathTwoArc dsc p, dsc, p)

/-- A JS value sitting in `options.radarDescriptor`: its `type` property
(`none` when absent) and its geometric fields. -/
structure JSDescriptor where
  tag : Option String
  fields : RadarDescriptor

/-- The options argument of `initialize`; `none` models an absent
`radarDescriptor` property (JS reads it as `undefined`). -/
structure RadarOptions where
  radarDescriptor : Option JSDescriptor

/-- `initialize(latlng, options)`: reading `options.radarDescriptor.type`
throws a TypeError when the property is absent (`undefined` has no
properties).  When a descriptor object IS passed, `L.setOptions` has merged it
over the default, so `this.options.radarDescriptor` in the `else` branch is
again the caller's own object — the zero default in `options:` is reachable
only when the property is absent, where the `.type` read throws first. -/
def initializeRadar (latlng : ℝ × ℝ) (opts : RadarOptions) :
    Except String ((ℝ × ℝ) × JSDescriptor) :=
  match opts.radarDescriptor with
  | none => Except.error ("TypeError: Cannot read properties of undefined (reading type)")
  | some rd =>
      if rd.tag = some ("RadarDescriptor") then Except.ok (latlng, rd)
      else Except.ok (latlng, rd)

/-- A concrete exact-equirectangular map view for witnesses and
counterexamples: projecting sends latitude to `y` and longitude to `x`
unchanged, so unprojection inverts projection exactly.  A legitimate instance
of the abstract projection interface the claims quantify over. -/
def testView : MapView :=
  { crsIsEarth := true
    project := fun lat lng => ⟨lng, lat⟩
    unprojectLat := fun p => p.y
    pixelOrigin := ⟨0, 0⟩
    latLngToLayerPoint := fun lat lng => ⟨lng, lat⟩
    crsProject := fun lat lng => ⟨lng, lat⟩
    crsUnproject := fun p => (p.y, p.x) }

/-- `testView` with a CRS whose distance function is not the spherical-earth
one, driving `_project` into its non-spherical branch. -/
def flatView : MapView := { testView with crsIsEarth := false }

/-- A non-spherical-branch overlay state whose cached `_minorRadius` is the
argument `stale`; every geodesic field and everything the view reads is fixed
independently of `stale`. -/
def staleMinorState (stale : ℝ) : RadarState :=
  { lat := 0
    lng := 0
    desc := { _minorRadius := stale, _majorRadius := 0, _mRadius := 5, _nRadius := 3,
              _startAngle := 0, _endAngle := 0, _middleAngle := 0 }
    point := ⟨0, 0⟩
    pxBounds := ⟨⟨0, 0⟩, ⟨0, 0⟩⟩ }

/-- Helper: `pixelRadiusFrom` on a non-NaN `lngR` stores the integer
`max (round _) 1`, which is at least `1`. -/
theorem pixelRadiusFrom_some_int_ge_one (m : MapView) (lat lng latR v : ℝ) :
    ∃ n : ℤ, pixelRadiusFrom m lat lng latR (some v) = (n : ℝ) ∧ 1 ≤ n :=
  ⟨_, rfl, le_max_right _ _⟩

/-- Helper: with a nonzero fallback cosine the guarded `lngR` is never NaN:
either the law-of-cosines value is kept or the fallback supplies a real. -/
theorem lngRfinal_isSome (m : MapView) (lat lng latR : ℝ)
    (h : Real.cos (degRad * lat) ≠ 0) :
    ∃ v : ℝ, lngRfinal m lat lng latR = some v := by
  unfold lngRfinal lngRfallback
  cases lngRraw lat (lat2of m lat lng latR) latR with
  | none =>
      rw [if_neg h]
      exact ⟨_, rfl⟩
  | some v =>
      dsimp only
      by_cases hv : v = 0
      · rw [if_pos hv, if_neg h]
        exact ⟨_, rfl⟩
      · rw [if_neg hv]
        exact ⟨_, rfl⟩

/-- Helper: for every projection, center with nonzero fallback cosine, and
every geodesic radius, the spherical branch stores an integer pixel radius of
at least `1`. -/
theorem sphericalPixelRadius_int_ge_one (m : MapView) (lat lng r : ℝ)
    (h : Real.cos (degRad * lat) ≠ 0) :
    ∃ n : ℤ, sphericalPixelRadius m lat lng r = (n : ℝ) ∧ 1 ≤ n := by
  obtain ⟨v, hv⟩ := lngRfinal_isSome m lat lng (latAngularRadius r) h
  unfold sphericalPixelRadius
  rw [hv]
  exact pixelRadiusFrom_some_int_ge_one m lat lng (latAngularRadius r) v

/-- Helper: the fully evaluated spherical pixel radius at the equirectangular
`testView`, center `(0, 0)`, geodesic radius `0`: the law-of-cosines value is
`acos 1 / d = 0`, the fallback keeps it `0` (not NaN), and the final
`Math.max(Math.round(0), 1)` stores `1`. -/
theorem sphericalPixelRadius_testView_zero : sphericalPixelRadius testView 0 0 0 = 1 := by
  have hlatR : latAngularRadius 0 = 0 := by
    unfold latAngularRadius
    norm_num
  have hmid : radiusMidpoint testView 0 0 0 = ⟨0, 0⟩ := by
    unfold radiusMidpoint testView
    simp [Point.add, Point.divideBy]
  have hlat2 : lat2of testView 0 0 0 = 0 := by
    unfold lat2of
    rw [hmid]
    rfl
  have hraw : lngRraw 0 (lat2of testView 0 0 0) 0 = some 0 := by
    rw [hlat2]
    unfold lngRraw
    norm_num [Real.arccos_one]
  have hfall : lngRfallback 0 0 = some 0 := by
    unfold lngRfallback
    norm_num
  have hfin : lngRfinal testView 0 0 (latAngularRadius 0) = some 0 := by
    unfold lngRfinal
    rw [hlatR, hraw]
    simp [hfall]
  unfold sphericalPixelRadius
  rw [hfin, hlatR]
  unfold pixelRadiusFrom
  rw [hmid, hlat2]
  norm_num [testView]

/-- Claim C1 counterexample: in the spherical branch, at center `(0, 0)` under
an exact equirectangular projection, geodesic radius exactly `0` produces
pixel radius `1`, not `0`: the floor-at-1 rule is NOT bypassed. -/
theorem c1_counterexample :
    sphericalPixelRadius testView 0 0 0 = 1 ∧ sphericalPixelRadius testView 0 0 0 ≠ 0 := by
  have h := sphericalPixelRadius_testView_zero
  exact ⟨h, by rw [h]; norm_num⟩

/-- Claim C1 (amended): in the spherical branch a geodesic radius of exactly
`0` does NOT bypass the floor-at-1 rule: for every projection and every center
whose fallback cosine is nonzero (true of every IEEE-double latitude), the
stored pixel radius is an integer `≥ 1` — the zero-radius law-of-cosines value
falls back to `0`, which is not NaN, so `Math.max(Math.round(_), 1)` applies. -/
theorem c1_zero_radius_still_floored (m : MapView) (lat lng : ℝ)
    (h : Real.cos (degRad * lat) ≠ 0) :
    ∃ n : ℤ, sphericalPixelRadius m lat lng 0 = (n : ℝ) ∧ 1 ≤ n :=
  sphericalPixelRadius_int_ge_one m lat lng 0 h

/-- Witness for `c1_zero_radius_still_floored` at `testView`, center `(0, 0)`. -/
theorem c1_zero_radius_still_floored_witness :
    Real.cos (degRad * 0) ≠ 0 ∧
      ∃ n : ℤ, sphericalPixelRadius testView 0 0 0 = (n : ℝ) ∧ 1 ≤ n :=
  ⟨by simp, c1_zero_radius_still_floored testView 0 0 (by simp)⟩

/-- Claim C2: in the spherical branch, for every geodesic radius `> 0` and
every valid center and projection (nonzero fallback cosine, true of every
IEEE-double latitude), the stored pixel radius is an integer `≥ 1`. -/
theorem c2_positive_radius_int_ge_one (m : MapView) (lat lng r : ℝ)
    (hr : 0 < r) (h : Real.cos (degRad * lat) ≠ 0) :
    ∃ n : ℤ, sphericalPixelRadius m lat lng r = (n : ℝ) ∧ 1 ≤ n :=
  sphericalPixelRadius_int_ge_one m lat lng r h

/-- Witness for `c2_positive_radius_int_ge_one` at `testView`, center
`(0, 0)`, geodesic radius `1`. -/
theorem c2_positive_radius_int_ge_one_witness :
    (0 : ℝ) < 1 ∧ Real.cos (degRad * 0) ≠ 0 ∧
      ∃ n : ℤ, sphericalPixelRadius testView 0 0 1 = (n : ℝ) ∧ 1 ≤ n :=
  ⟨by norm_num, by simp, c2_positive_radius_int_ge_one testView 0 0 1 (by norm_num) (by simp)⟩

/-- Claim C7: whenever the law-of-cosines value is NaN (`acos` argument
outside `[-1, 1]`, including via a zero denominator) or exactly `0`, the
spherical branch continues with the small-angle fallback
`latR / cos(lat * π/180)`: the guarded `lngR` equals the fallback value and
the stored pixel radius is computed from it.  The whole computation is a total
function into `ℝ` — no exceptional outcome exists to surface to the caller. -/
theorem c7_fallback (m : MapView) (lat lng r : ℝ)
    (h : lngRraw lat (lat2of m lat lng (latAngularRadius r)) (latAngularRadius r) = none ∨
         lngRraw lat (lat2of m lat lng (latAngularRadius r)) (latAngularRadius r) = some 0) :
    lngRfinal m lat lng (latAngularRadius r) = lngRfallback lat (latAngularRadius r) ∧
      sphericalPixelRadius m lat lng r =
        pixelRadiusFrom m lat lng (latAngularRadius r)
          (lngRfallback lat (latAngularRadius r)) := by
  have h1 : lngRfinal m lat lng (latAngularRadius r) = lngRfallback lat (latAngularRadius r) := by
    unfold lngRfinal
    rcases h with h | h <;> rw [h] <;> simp
  refine ⟨h1, ?_⟩
  unfold sphericalPixelRadius
  rw [h1]

/-- Witness for `c7_fallback` at `testView`, center `(0, 0)`, geodesic radius
`0`, where the law-of-cosines value is exactly `0`. -/
theorem c7_fallback_witness :
    (lngRraw 0 (lat2of testView 0 0 (latAngularRadius 0)) (latAngularRadius 0) = none ∨
       lngRraw 0 (lat2of testView 0 0 (latAngularRadius 0)) (latAngularRadius 0) = some 0) ∧
      (lngRfinal testView 0 0 (latAngularRadius 0) = lngRfallback 0 (latAngularRadius 0) ∧
        sphericalPixelRadius testView 0 0 0 =
          pixelRadiusFrom testView 0 0 (latAngularRadius 0)
            (lngRfallback 0 (latAngularRadius 0))) :=
  ⟨Or.inr (by
      norm_num [lngRraw, lat2of, radiusMidpoint, latAngularRadius, testView,
        Point.add, Point.divideBy, Real.arccos_one]),
   c7_fallback testView 0 0 0 (Or.inr (by
      norm_num [lngRraw, lat2of, radiusMidpoint, latAngularRadius, testView,
        Point.add, Point.divideBy, Real.arccos_one]))⟩

/-- Claim C3 (code-bug evidence): with `_majorRadius = 2`, click tolerance `1`
and anchor `(10, 10)`, `_updateBounds` stores the degenerate box whose BOTH
corners are `anchor - (r+w, r+w) = (7, 7)`; the max corner is not the
`anchor + (r+w, r+w) = (13, 13)` that a square centered at the anchor (and the
method's own doc comment) requires — the source passes
`this._point.subtract(p)` for both corner arguments of `L.Bounds`. -/
theorem c3_bounds_degenerate :
    updateBounds (radarDescriptor 1 2 0 0) ⟨10, 10⟩ 1 = ⟨⟨7, 7⟩, ⟨7, 7⟩⟩ ∧
      (updateBounds (radarDescriptor 1 2 0 0) ⟨10, 10⟩ 1).bmax ≠ (⟨13, 13⟩ : Point) := by
  have h : updateBounds (radarDescriptor 1 2 0 0) ⟨10, 10⟩ 1 = ⟨⟨7, 7⟩, ⟨7, 7⟩⟩ := by
    unfold updateBounds radarDescriptor boundsOf
    norm_num [Point.subtract]
  refine ⟨h, ?_⟩
  rw [h]
  intro hc
  have hx : (7 : ℝ) = 13 := congrArg Point.x hc
  norm_num at hx

/-- Claim C4 counterexample: single-arc construction with start angle `0` and
end angle `4` (span `> π`): the outer arc's large-arc flag is `1` — and the
inner return arc ALSO carries flag `1`, not the complement `0` the claim
predicts (the final conjunct records that the complement of `1` is not `1`). -/
theorem c4_counterexample :
    (getPathSingleArc 0 4 (radarDescriptor 100 200 0 4) ⟨0, 0⟩).map arcFlags =
        [none, none, some (1, 1), none, some (1, 0)] ∧ (1 : ℕ) ≠ 1 - 1 := by
  have hpi : Real.pi < 4 - 0 := by
    have h := Real.pi_lt_d2
    norm_num
    linarith
  constructor
  · unfold getPathSingleArc
    rw [if_pos hpi]
    rfl
  · norm_num

/-- Claim C4 (amended): in the single-arc construction, for every anchor,
radii and (unnormalized) angles of a factory-built descriptor, the outer arc
carries large-arc flag `1` iff `(endAngle - startAngle) > π` (a span of
exactly `π` gives `0`) with sweep flag `1`, and the inner return arc carries
the SAME large-arc flag — not its complement — with sweep flag `0`. -/
theorem c4_flags (minorR majorR s e : ℝ) (p : Point) :
    (getPathSingleArc s e (radarDescriptor minorR majorR s e) p).map arcFlags =
        [none, none, some (if Real.pi < e - s then 1 else 0, 1), none,
          some (if Real.pi < e - s then 1 else 0, 0)] ∧
      ((if Real.pi < e - s then (1 : ℕ) else 0) = 1 ↔ Real.pi < e - s) := by
  constructor
  · unfold getPathSingleArc
    rfl
  · split_ifs with h
    · simp [h]
    · simp [h]

/-- Claim C5: the two-arc `getPath` of a factory-built descriptor is exactly:
move to the inner-radius vertex at `startAngle`, line to the outer-radius
vertex at `startAngle`, two outer arcs (sweep `1`) through the middle angle
`(s+e)/2` ending at the outer-radius vertex at `endAngle`, line to the
inner-radius vertex at `endAngle`, two inner arcs with the opposite sweep
(`0`) back through the middle angle to the very vertex the path started at,
then close — and every vertex is `(r·cos θ + p.x, r·sin θ + p.y)`
(`createVertex`).  In particular the first command's target and the last arc's
target are the same inner-radius/start-angle vertex: round-trip closure. -/
theorem c5_path_structure (minorR majorR s e : ℝ) (p : Point) :
    getPathTwoArc (radarDescriptor minorR majorR s e) p =
      [PathCmd.move (createVertex minorR s p),
       PathCmd.line (createVertex majorR s p),
       PathCmd.arc majorR majorR 0 0 1 (createVertex majorR ((s + e) / 2) p),
       PathCmd.arc majorR majorR 0 0 1 (createVertex majorR e p),
       PathCmd.line (createVertex minorR e p),
       PathCmd.arc minorR minorR 0 0 0 (createVertex minorR ((s + e) / 2) p),
       PathCmd.arc minorR minorR 0 0 0 (createVertex minorR s p),
       PathCmd.close] := rfl

/-- Claim C6 counterexample: in the non-spherical branch `_project` leaves
`_minorRadius` at whatever value was cached before the pass (`42` versus `7`
below), although the two input states agree on every geodesic field, the
anchor and the whole view — so the field is not recomputed from current data
by that branch. -/
theorem c6_counterexample :
    (projectRun flatView 0 (staleMinorState 42)).desc._minorRadius = 42 ∧
      (projectRun flatView 0 (staleMinorState 7)).desc._minorRadius = 7 :=
  ⟨rfl, rfl⟩

/-- Claim C6 (amended): a `_project` pass recomputes and stores both
pixel-radius fields from the current geodesic radii and view in the spherical
branch; the non-spherical branch recomputes and stores only `_majorRadius`
and leaves `_minorRadius` unchanged. -/
theorem c6_fields_written (m : MapView) (w : ℝ) (s : RadarState) :
    (projectRun m w s).desc._majorRadius =
        (if m.crsIsEarth then sphericalPixelRadius m s.lat s.lng s.desc._mRadius
          else flatMajorRadius m s) ∧
      (projectRun m w s).desc._minorRadius =
        (if m.crsIsEarth then sphericalPixelRadius m s.lat s.lng s.desc._nRadius
          else s.desc._minorRadius) := by
  unfold projectRun
  cases h : m.crsIsEarth
  · simp [h]
  · simp [h]

/-- Claim C8 (code-bug evidence): with the `radarDescriptor` property omitted
from the options, the embedded `initialize` ends in the TypeError thrown by
reading `.type` of `undefined`, instead of succeeding with the defaulted zero
descriptor. -/
theorem c8_missing_descriptor_throws :
    initializeRadar (50.5, 30.5) ⟨none⟩ =
      Except.error ("TypeError: Cannot read properties of undefined (reading type)") := rfl

/-- Claim C9: a `_project` pass is a pure refresh of derived state: in either
branch the geodesic source of truth — the center latitude/longitude and the
descriptor fields `_mRadius`, `_nRadius`, `_startAngle`, `_endAngle` — is
exactly what it was before the pass. -/
theorem c9_geodesic_frame (m : MapView) (w : ℝ) (s : RadarState) :
    (projectRun m w s).lat = s.lat ∧ (projectRun m w s).lng = s.lng ∧
      (projectRun m w s).desc._mRadius = s.desc._mRadius ∧
      (projectRun m w s).desc._nRadius = s.desc._nRadius ∧
      (projectRun m w s).desc._startAngle = s.desc._startAngle ∧
      (projectRun m w s).desc._endAngle = s.desc._endAngle := by
  unfold projectRun
  cases h : m.crsIsEarth
  · simp [h]
  · simp [h]

/-- Claim C10: `getPath` is deterministic and side-effect-free: its body only
declares locals and returns, so the state-transformer embedding returns the
descriptor and anchor unchanged, and two calls on equal factory-built
descriptor states with equal anchors yield the same command list. -/
theorem c10_getPath_pure (minorR majorR s e : ℝ) (d1 d2 : RadarDescriptor) (p1 p2 : Point)
    (h1 : d1 = radarDescriptor minorR majorR s e)
    (h2 : d2 = radarDescriptor minorR majorR s e)
    (hp : p1 = p2) :
    (getPathTwoArcRun d1 p1).1 = (getPathTwoArcRun d2 p2).1 ∧
      (getPathTwoArcRun d1 p1).2.1 = d1 ∧ (getPathTwoArcRun d1 p1).2.2 = p1 := by
  subst h1
  subst h2
  subst hp
  exact ⟨rfl, rfl, rfl⟩

/-- Witness for `c10_getPath_pure` at the descriptor
`radarDescriptor 100 200 0 4` and anchor `(0, 0)`. -/
theorem c10_getPath_pure_witness :
    radarDescriptor 100 200 0 4 = radarDescriptor 100 200 0 4 ∧
      (⟨0, 0⟩ : Point) = ⟨0, 0⟩ ∧
      ((getPathTwoArcRun (radarDescriptor 100 200 0 4) ⟨0, 0⟩).1 =
          (getPathTwoArcRun (radarDescriptor 100 200 0 4) ⟨0, 0⟩).1 ∧
        (getPathTwoArcRun (radarDescriptor 100 200 0 4) ⟨0, 0⟩).2.1 =
          radarDescriptor 100 200 0 4 ∧
        (getPathTwoArcRun (radarDescriptor 100 200 0 4) ⟨0, 0⟩).2.2 = ⟨0, 0⟩) :=
  ⟨rfl, rfl, c10_getPath_pure 100 200 0 4 _ _ _ _ rfl rfl rfl⟩

end

end LRadar
